import Mathlib

/-
Shallow embedding of `src/viadot/sources/supermetrics.py` (class `Supermetrics`).

Python scalars appearing in data rows are modelled by `Cell`; `np.nan` (the
missing-value marker introduced by `.replace("", np.nan)`) is `Cell.missing`.
Python exceptions are modelled by `VError`; the two `ValueError`s the source
raises (`"Please build the query first"` in `to_json`, and the could-not-find
column-names message in `_get_col_names_google_analytics`)
are `queryNotBuilt` and `emptyResponse`, and `isValueError` records which
errors the `except ValueError` in `to_df` catches.

The HTTP fetch performed by `handle_api_response` is external: it is modelled
by passing the payload `api` that the API would return, and a fetch counter
threaded through the stateful operations counts how many times `to_json`
actually performs a fetch.
-/

namespace Viadot

/-- A scalar cell of a Supermetrics data row: a JSON string, a JSON number, or
the missing-value marker `np.nan`. -/
inductive Cell where
  | str : String → Cell
  | num : Int → Cell
  | missing : Cell
deriving DecidableEq, Repr

/-- One entry of `response["meta"]["query"]["fields"]`. -/
structure QueryField where
  field_name : String
  field_split : String
deriving DecidableEq, Repr

/-- The parts of the JSON query response that the normalizer consumes:
`meta.query.fields` and `data`. -/
structure QueryResponse where
  fields : List QueryField
  data : List (List Cell)
deriving DecidableEq, Repr

/-- The Python exceptions that arise in this module. `credentialError` is
`CredentialError`; `attributeError` is the `AttributeError` Python raises when
`.get` is called on `None`; `queryNotBuilt` and `emptyResponse` are the two
`ValueError`s of `to_json` and `_get_col_names_google_analytics`;
`emptyResultPolicy` is the error the base class raises under the `fail`
empty-result policy. -/
inductive VError where
  | credentialError : VError
  | attributeError : VError
  | queryNotBuilt : VError
  | emptyResponse : VError
  | emptyResultPolicy : VError
deriving DecidableEq, Repr

/-- Which of the modelled errors are Python `ValueError`s, i.e. which errors
the `except ValueError` clause in `to_df` catches. -/
def isValueError : VError → Bool
  | .queryNotBuilt => true
  | .emptyResponse => true
  | _ => false

/-- The stored query parameters; the embedding keeps the one key the module
reads, `ds_id`. `self.query_params` being `None` (or empty, which is equally
falsy in `if not self.query_params`) is modelled by `Option.none` at the
`Supermetrics` level. -/
structure QueryParams where
  ds_id : String
deriving DecidableEq, Repr

/-- The state of a constructed `Supermetrics` object. -/
structure Supermetrics where
  user : String
  api_key : String
  query_params : Option QueryParams
deriving DecidableEq, Repr

/-- A credentials mapping as a Python dict: each of the two keys may be
absent (`none`) or present with a string value. -/
structure RawCredentials where
  user : Option String
  api_key : Option String
deriving DecidableEq, Repr

/-- Truthiness of `credentials.get(key)`: the key is present and its value is
a non-empty string. -/
def truthyStr : Option String → Bool
  | none => false
  | some s => s ≠ ""

/-- `Supermetrics.__init__`: `credentials = credentials or
get_source_credentials(config_key)` (the store lookup is external and is
passed in as `store`, the credentials it resolves for the given config key, if
any); then `if not (credentials.get("user") and credentials.get("api_key")):
raise CredentialError(...)`. When neither the argument nor the store supplies
a dict, `credentials` is `None` and `credentials.get("user")` raises
`AttributeError`. The resolution step is split out as `resolveCredentials`:
the explicit argument wins when given, otherwise whatever the store lookup
yields (possibly nothing). -/
def resolveCredentials (credentials store : Option RawCredentials) :
    Option RawCredentials :=
  match credentials with
  | some c => some c
  | none => store

/-- `Supermetrics.__init__` after credential resolution: the truthiness check
on `credentials.get("user") and credentials.get("api_key")`, raising
`CredentialError` when either is missing or empty, and `AttributeError` when
no credentials dict resolved at all. -/
def supermetricsInit (credentials : Option RawCredentials)
    (store : Option RawCredentials) (query_params : Option QueryParams) :
    Except VError Supermetrics :=
  match resolveCredentials credentials store with
  | none => .error .attributeError
  | some creds =>
    if truthyStr creds.user && truthyStr creds.api_key then
      match creds.user, creds.api_key with
      | some u, some k =>
        .ok { user := u, api_key := k, query_params := query_params }
      | _, _ => .error .credentialError
    else .error .credentialError

/-- `Supermetrics.to_json`: raises `ValueError("Please build the query
first")` when `self.query_params` is unset, otherwise performs one HTTP fetch
(counted) and returns the JSON payload. -/
def to_json (s : Supermetrics) (api : QueryResponse) (fetchCount : Nat) :
    Except VError QueryResponse × Nat :=
  match s.query_params with
  | none => (.error .queryNotBuilt, fetchCount)
  | some _ => (.ok api, fetchCount + 1)

/-- `is_pivoted` inside `_get_col_names_google_analytics`: some field was
split into pivoted columns. -/
def isPivoted (response : QueryResponse) : Bool :=
  response.fields.any (fun f => f.field_split == "column")

/-- `Supermetrics._get_col_names_google_analytics`: for a pivoted response the
column names are `data[0]` (raising `ValueError` when `data` is empty); for a
non-pivoted response they are the `field_name`s of `meta.query.fields`. -/
def _get_col_names_google_analytics (response : QueryResponse) :
    Except VError (List Cell) :=
  if isPivoted response then
    match response.data with
    | [] => .error .emptyResponse
    | r0 :: _ => .ok r0
  else
    .ok (response.fields.map (fun f => Cell.str f.field_name))

/-- `Supermetrics._get_col_names_other`: the `field_name`s of
`meta.query.fields`, in order. -/
def _get_col_names_other (response : QueryResponse) : List Cell :=
  response.fields.map (fun f => Cell.str f.field_name)

/-- `Supermetrics._get_col_names`: fetch the response via `to_json`, then
dispatch on `self.query_params["ds_id"] == "GA"`. -/
def _get_col_names (s : Supermetrics) (api : QueryResponse) (fetchCount : Nat) :
    Except VError (List Cell) × Nat :=
  match s.query_params with
  | none => (.error .queryNotBuilt, fetchCount)
  | some qp =>
    if qp.ds_id = "GA" then
      (_get_col_names_google_analytics api, fetchCount + 1)
    else
      (.ok (_get_col_names_other api), fetchCount + 1)

/-- The effect of `.replace("", np.nan)` on a single cell. -/
def replaceEmpty (cell : Cell) : Cell :=
  if cell = Cell.str "" then Cell.missing else cell

/-- The pandas DataFrame produced by `to_df`: optional column labels
(`columns=None` when column derivation failed) and the data rows. -/
structure Table where
  columns : Option (List Cell)
  rows : List (List Cell)
deriving DecidableEq, Repr

/-- Modelled from the spec: `Source._handle_if_empty` lives in the base class
`viadot.sources.base.Source`, which is not part of the sources given; the
spec describes `handleEmpty` as raising a descriptive error under the `fail`
policy on a zero-row table and returning the empty table under `warn` (with a
warning) or `ignore`. -/
def _handle_if_empty (if_empty : String) : Except VError Unit :=
  if if_empty = "fail" then .error .emptyResultPolicy else .ok ()

/-- `Supermetrics.to_df`:
`try: columns = self._get_col_names() except ValueError: columns = None`;
then `data = self.to_json()["data"]` (a second fetch); then
`df = pd.DataFrame(data[1:], columns=columns).replace("", np.nan)` when
`data` is non-empty (note `data[1:]` unconditionally drops the first row) and
`pd.DataFrame(columns=columns)` otherwise; finally
`if df.empty: self._handle_if_empty(if_empty)`. -/
def to_df (s : Supermetrics) (api : QueryResponse) (if_empty : String)
    (fetchCount : Nat) : Except VError Table × Nat :=
  let step := _get_col_names s api fetchCount
  let n1 := step.2
  let columnsRes : Except VError (Option (List Cell)) :=
    match step.1 with
    | .ok cols => .ok (some cols)
    | .error e => if isValueError e then .ok none else .error e
  match columnsRes with
  | .error e => (.error e, n1)
  | .ok columns =>
    match to_json s api n1 with
    | (.error e, n2) => (.error e, n2)
    | (.ok response, n2) =>
      let df : Table :=
        match response.data with
        | [] => { columns := columns, rows := [] }
        | _ :: rest =>
          { columns := columns,
            rows := rest.map (fun row => row.map replaceEmpty) }
      if df.rows.isEmpty then
        match _handle_if_empty if_empty with
        | .error e => (.error e, n2)
        | .ok _ => (.ok df, n2)
      else (.ok df, n2)

/-- `Supermetrics.query`: store the parameters (with the API key attached) and
return the updated object. -/
def query (s : Supermetrics) (params : QueryParams) : Supermetrics :=
  { s with query_params := some params }

/-- Concrete fields from the end-to-end example in the spec:
`[{field_name: "name", field_split: "none"}, {field_name: "total",
field_split: "none"}]`. -/
def exFields : List QueryField :=
  [{ field_name := "name", field_split := "none" },
   { field_name := "total", field_split := "none" }]

/-- Concrete response from the end-to-end example:
`data = [["James", 4924235], ["John", 4818746]]`. -/
def exResponse : QueryResponse :=
  { fields := exFields,
    data := [[Cell.str "James", Cell.num 4924235],
             [Cell.str "John", Cell.num 4818746]] }

/-- A constructed source with query parameters set for a non-GA data source. -/
def exSource : Supermetrics :=
  { user := "u@example.com", api_key := "k", query_params := some { ds_id := "AW" } }

/-- A constructed source with query parameters set for the GA data source. -/
def exSourceGA : Supermetrics :=
  { user := "u@example.com", api_key := "k", query_params := some { ds_id := "GA" } }

/-- A constructed source with no query parameters set. -/
def exSourceNoQuery : Supermetrics :=
  { user := "u@example.com", api_key := "k", query_params := none }

/-- Concrete pivoted response from the spec: one field with
`field_split:"column"`, `data = [["James","John"], [1,2]]`. -/
def exPivotResponse : QueryResponse :=
  { fields := [{ field_name := "name", field_split := "column" }],
    data := [[Cell.str "James", Cell.str "John"],
             [Cell.num 1, Cell.num 2]] }

/-- Helper: for a source whose `query_params` are set, `to_df` on a response
with data `r0 :: rest` succeeds with rows `rest` (after empty-string
replacement) whenever `rest` is non-empty, and the column labels are whatever
`_get_col_names` delivered (wrapped) or `none` after a caught `ValueError`. -/
theorem to_df_rows_of_cons (s : Supermetrics) (qp : QueryParams)
    (api : QueryResponse) (if_empty : String) (n : Nat)
    (r0 : List Cell) (rest : List (List Cell))
    (hqp : s.query_params = some qp)
    (hdata : api.data = r0 :: rest)
    (hrest : rest ≠ []) :
    ∃ cols : Option (List Cell),
      (to_df s api if_empty n).1 =
        .ok { columns := cols,
              rows := rest.map (fun row => row.map replaceEmpty) } := by
  obtain ⟨r1, rs, rfl⟩ : ∃ r1 rs, rest = r1 :: rs := by
    cases rest with
    | nil => exact absurd rfl hrest
    | cons r1 rs => exact ⟨r1, rs, rfl⟩
  unfold to_df _get_col_names to_json
  rw [hqp]
  by_cases hga : qp.ds_id = "GA"
  · simp only [hga, if_pos, if_true]
    cases hcols : _get_col_names_google_analytics api with
    | ok cols => exact ⟨some cols, by simp [hcols, hdata]⟩
    | error e =>
      refine ⟨none, ?_⟩
      have hval : isValueError e = true := by
        unfold _get_col_names_google_analytics at hcols
        split at hcols
        · rw [hdata] at hcols
          simp at hcols
        · simp at hcols
      simp [hcols, hval, hdata]
  · exact ⟨some (_get_col_names_other api), by simp [hga, hdata]⟩

/-- Helper: mapping `replaceEmpty` over a row containing no empty-string cell
leaves the row unchanged. -/
theorem map_replaceEmpty_of_not_mem (row : List Cell)
    (h : Cell.str "" ∉ row) : row.map replaceEmpty = row := by
  induction row with
  | nil => rfl
  | cons c cs ih =>
    simp only [List.mem_cons, not_or] at h
    simp only [List.map_cons]
    rw [ih h.2]
    have hc : c ≠ Cell.str "" := fun hcc => h.1 hcc.symm
    simp [replaceEmpty, hc]

/-- Helper: mapping row-wise `replaceEmpty` over rows with no empty-string
cells leaves the rows unchanged. -/
theorem map_map_replaceEmpty_of_clean (rows : List (List Cell))
    (h : ∀ row ∈ rows, Cell.str "" ∉ row) :
    rows.map (fun row => row.map replaceEmpty) = rows := by
  induction rows with
  | nil => rfl
  | cons r rs ih =>
    simp only [List.map_cons]
    rw [map_replaceEmpty_of_not_mem r (h r (List.mem_cons_self r rs)),
      ih (fun row hrow => h row (List.mem_cons_of_mem r hrow))]

/-- C1: the claim is false on the code: `to_df` computes
`pd.DataFrame(data[1:], columns=columns)` unconditionally, so even for a
non-pivoted response the first data row is dropped. On the concrete input of
the claim the resulting table has only the `John` row, not both rows. -/
theorem C1_counterexample :
    (to_df exSource exResponse "fail" 0).1 =
      .ok { columns := some [Cell.str "name", Cell.str "total"],
            rows := [[Cell.str "John", Cell.num 4818746]] } ∧
    ([[Cell.str "John", Cell.num 4818746]] : List (List Cell)) ≠
      [[Cell.str "James", Cell.num 4924235],
       [Cell.str "John", Cell.num 4818746]] := by
  exact ⟨rfl, by decide⟩

/-- C1 (amended): for a non-pivoted response with data `r0 :: rest` and
`rest` non-empty, `to_df` labels the table with the `field_name`s from
`meta.query.fields` and its rows are `data` with the FIRST ROW EXCLUDED,
unmodified except for empty-string replacement. -/
theorem C1_amended_to_df (s : Supermetrics) (qp : QueryParams)
    (api : QueryResponse) (if_empty : String) (n : Nat)
    (r0 : List Cell) (rest : List (List Cell))
    (hqp : s.query_params = some qp)
    (hpiv : isPivoted api = false)
    (hdata : api.data = r0 :: rest)
    (hrest : rest ≠ []) :
    (to_df s api if_empty n).1 =
      .ok { columns := some (api.fields.map (fun f => Cell.str f.field_name)),
            rows := rest.map (fun row => row.map replaceEmpty) } := by
  obtain ⟨r1, rs, rfl⟩ : ∃ r1 rs, rest = r1 :: rs := by
    cases rest with
    | nil => exact absurd rfl hrest
    | cons r1 rs => exact ⟨r1, rs, rfl⟩
  unfold to_df _get_col_names to_json
  rw [hqp]
  by_cases hga : qp.ds_id = "GA"
  · simp [hga, _get_col_names_google_analytics, hpiv, hdata]
  · simp [hga, _get_col_names_other, hdata]

/-- C1 (amended) witness: on the concrete input of the claim, `to_df` returns
columns `["name","total"]` and the single row `["John", 4818746]`. -/
theorem C1_amended_witness :
    (to_df exSource exResponse "fail" 0).1 =
      .ok { columns := some [Cell.str "name", Cell.str "total"],
            rows := [[Cell.str "John", Cell.num 4818746]] } := by
  have h := C1_amended_to_df exSource { ds_id := "AW" } exResponse "fail" 0
    [Cell.str "James", Cell.num 4924235]
    [[Cell.str "John", Cell.num 4818746]]
    rfl (by decide) rfl (by decide)
  simpa using h

/-- C2: for a pivoted GA response with non-empty data, column derivation
returns exactly `data[0]`, and the table built by `to_df` has exactly the
remaining rows (here stated for rows without empty-string cells, which pass
through unchanged; a failing `if_empty` policy on a header-only response is
excluded since then no table is returned at all). -/
theorem C2_pivoted_to_df (s : Supermetrics) (qp : QueryParams)
    (api : QueryResponse) (if_empty : String) (n : Nat)
    (r0 : List Cell) (rest : List (List Cell))
    (hqp : s.query_params = some qp)
    (hga : qp.ds_id = "GA")
    (hpiv : isPivoted api = true)
    (hdata : api.data = r0 :: rest)
    (hclean : ∀ row ∈ rest, Cell.str "" ∉ row)
    (hok : rest ≠ [] ∨ if_empty ≠ "fail") :
    _get_col_names_google_analytics api = .ok r0 ∧
    (to_df s api if_empty n).1 = .ok { columns := some r0, rows := rest } := by
  have hcols : _get_col_names_google_analytics api = .ok r0 := by
    simp [_get_col_names_google_analytics, hpiv, hdata]
  refine ⟨hcols, ?_⟩
  unfold to_df _get_col_names to_json
  rw [hqp]
  cases rest with
  | nil =>
    have hfail : if_empty ≠ "fail" := by
      rcases hok with h | h
      · exact absurd rfl h
      · exact h
    simp [hga, hcols, hdata, _handle_if_empty, hfail]
  | cons r1 rs =>
    have hmap := map_map_replaceEmpty_of_clean (r1 :: rs) hclean
    simp [hga, hcols, hdata, hmap]

/-- C2 witness: the pivoted example from the spec, fields with one
`field_split:"column"` entry and `data = [["James","John"],[1,2]]`, yields
columns `["James","John"]` and the single row `[1,2]`. -/
theorem C2_pivoted_witness :
    _get_col_names_google_analytics exPivotResponse =
      .ok [Cell.str "James", Cell.str "John"] ∧
    (to_df exSourceGA exPivotResponse "fail" 0).1 =
      .ok { columns := some [Cell.str "James", Cell.str "John"],
            rows := [[Cell.num 1, Cell.num 2]] } := by
  have h := C2_pivoted_to_df exSourceGA { ds_id := "GA" } exPivotResponse "fail" 0
    [Cell.str "James", Cell.str "John"] [[Cell.num 1, Cell.num 2]]
    rfl rfl (by decide) rfl (by decide) (Or.inl (by decide))
  simpa using h

/-- Concrete pivoted response with an empty `data` sequence. -/
def exPivotEmpty : QueryResponse :=
  { fields := [{ field_name := "name", field_split := "column" }],
    data := [] }

/-- C3: for a pivoted response with empty data, column derivation raises the
empty-response `ValueError` and does not return a column list. -/
theorem C3_pivoted_empty (api : QueryResponse)
    (hpiv : isPivoted api = true) (hdata : api.data = []) :
    _get_col_names_google_analytics api = .error .emptyResponse ∧
    ∀ cols : List Cell, _get_col_names_google_analytics api ≠ .ok cols := by
  have h : _get_col_names_google_analytics api = .error .emptyResponse := by
    simp [_get_col_names_google_analytics, hpiv, hdata]
  exact ⟨h, fun cols hok => by rw [h] at hok; exact Except.noConfusion hok⟩

/-- C3 witness: a concrete pivoted, data-less response. -/
theorem C3_pivoted_empty_witness :
    _get_col_names_google_analytics exPivotEmpty = .error .emptyResponse ∧
    ∀ cols : List Cell, _get_col_names_google_analytics exPivotEmpty ≠ .ok cols :=
  C3_pivoted_empty exPivotEmpty (by decide) rfl

/-- C4: for a non-pivoted response with non-empty field metadata, column
derivation returns exactly the `field_name`s in declared order and cannot
fail, independent of `data` (the statement quantifies over arbitrary `data`
inside `api`). -/
theorem C4_non_pivoted (api : QueryResponse)
    (hpiv : isPivoted api = false) (_hfields : api.fields ≠ []) :
    _get_col_names_google_analytics api =
      .ok (api.fields.map (fun f => Cell.str f.field_name)) ∧
    _get_col_names_other api = api.fields.map (fun f => Cell.str f.field_name) := by
  exact ⟨by simp [_get_col_names_google_analytics, hpiv], rfl⟩

/-- C4 witness: the concrete non-pivoted example response, whose `data` is
non-empty, and its variant with `data` emptied, both yield
`["name","total"]`. -/
theorem C4_non_pivoted_witness :
    _get_col_names_google_analytics exResponse =
      .ok (exResponse.fields.map (fun f => Cell.str f.field_name)) ∧
    _get_col_names_other exResponse =
      exResponse.fields.map (fun f => Cell.str f.field_name) :=
  C4_non_pivoted exResponse (by decide) (by decide)

/-- C5: the claim is false on the code: `to_df` fetches the payload twice —
once inside `_get_col_names` (which calls `to_json`) and once directly via
`data = self.to_json()["data"]` — so the fetch counter increases by two, not
one. -/
theorem C5_counterexample :
    (to_df exSource exResponse "fail" 0).2 = 2 ∧ (2 : Nat) ≠ 0 + 1 :=
  ⟨rfl, by decide⟩

/-- C5 (amended): each `to_df` call on a source with query parameters set
performs exactly TWO data fetches: column derivation and row extraction each
issue their own `to_json` fetch, consuming separately fetched payloads. -/
theorem C5_amended_two_fetches (s : Supermetrics) (qp : QueryParams)
    (api : QueryResponse) (if_empty : String) (n : Nat)
    (hqp : s.query_params = some qp) :
    (to_df s api if_empty n).2 = n + 2 := by
  unfold to_df _get_col_names to_json _handle_if_empty
  rw [hqp]
  by_cases hga : qp.ds_id = "GA"
  · simp only [hga, if_true]
    cases hcols : _get_col_names_google_analytics api with
    | ok cols =>
      simp only [hcols]
      cases hdata : api.data with
      | nil => split_ifs <;> simp
      | cons r rest => simp only [hdata]; split_ifs <;> simp
    | error e =>
      have hval : isValueError e = true := by
        unfold _get_col_names_google_analytics at hcols
        split at hcols
        · cases hd : api.data with
          | nil =>
            rw [hd] at hcols
            injection hcols with h2
            rw [← h2]
            rfl
          | cons r rest =>
            rw [hd] at hcols
            exact absurd hcols (by simp)
        · exact absurd hcols (by simp)
      simp only [hcols, hval, if_true]
      cases hdata : api.data with
      | nil => split_ifs <;> simp
      | cons r rest => simp only [hdata]; split_ifs <;> simp
  · simp only [hga, if_false]
    cases hdata : api.data with
    | nil => split_ifs <;> simp
    | cons r rest => simp only [hdata]; split_ifs <;> simp

/-- C5 (amended) witness: on the concrete example the counter goes from 0 to
2. -/
theorem C5_amended_witness : (to_df exSource exResponse "fail" 0).2 = 0 + 2 :=
  C5_amended_two_fetches exSource { ds_id := "AW" } exResponse "fail" 0 rfl

/-- C6: the empty-response `ValueError` raised by column derivation is caught
by the `except ValueError` inside `to_df` (degrading to `columns = None`) and
never escapes as the result of the overall `to_df` call, for any source state,
payload, policy and counter. -/
theorem C6_empty_response_never_escapes (s : Supermetrics)
    (api : QueryResponse) (if_empty : String) (n : Nat) :
    (to_df s api if_empty n).1 ≠ Except.error VError.emptyResponse := by
  unfold to_df _get_col_names to_json _handle_if_empty
  rcases hqp : s.query_params with _ | qp
  · simp [isValueError]
  · by_cases hga : qp.ds_id = "GA"
    · simp only [hga, if_true]
      cases hcols : _get_col_names_google_analytics api with
      | ok cols =>
        simp only [hcols]
        cases hdata : api.data with
        | nil => split_ifs <;> simp
        | cons r rest => simp only [hdata]; split_ifs <;> simp
      | error e =>
        have hval : isValueError e = true := by
          unfold _get_col_names_google_analytics at hcols
          split at hcols
          · cases hd : api.data with
            | nil =>
              rw [hd] at hcols
              injection hcols with h2
              rw [← h2]
              rfl
            | cons r rest =>
              rw [hd] at hcols
              exact absurd hcols (by simp)
          · exact absurd hcols (by simp)
        simp only [hcols, hval, if_true]
        cases hdata : api.data with
        | nil => split_ifs <;> simp
        | cons r rest => simp only [hdata]; split_ifs <;> simp
    · simp only [hga, if_false]
      cases hdata : api.data with
      | nil => split_ifs <;> simp
      | cons r rest => simp only [hdata]; split_ifs <;> simp

/-- C7: fetching with unset query parameters raises the query-not-built
`ValueError`, both from `to_json` directly and from `to_df` — the first
instance is caught by the column-derivation `except ValueError`, but the
second fetch re-raises it, so the caller of `to_df` always observes it. -/
theorem C7_query_not_built (s : Supermetrics) (api : QueryResponse)
    (if_empty : String) (n : Nat) (h : s.query_params = none) :
    (to_json s api n).1 = .error .queryNotBuilt ∧
    (to_df s api if_empty n).1 = .error .queryNotBuilt := by
  constructor
  · simp [to_json, h]
  · unfold to_df _get_col_names to_json
    rw [h]
    simp [isValueError]

/-- C7 witness: a concrete source with no query built. -/
theorem C7_query_not_built_witness :
    (to_json exSourceNoQuery exResponse 0).1 = .error .queryNotBuilt ∧
    (to_df exSourceNoQuery exResponse "fail" 0).1 = .error .queryNotBuilt :=
  C7_query_not_built exSourceNoQuery exResponse "fail" 0 rfl

/-- Concrete response whose data rows contain an empty-string cell. -/
def exDirtyResponse : QueryResponse :=
  { fields := exFields,
    data := [[Cell.str "name", Cell.str "total"],
             [Cell.str "", Cell.num 7]] }

/-- C8: `replaceEmpty` sends the empty string to the missing-value marker and
is the identity on every other cell, and the rows of the table `to_df`
produces are exactly the retained data rows mapped cell-wise through
`replaceEmpty` (no other coercion). -/
theorem C8_empty_string_replacement (s : Supermetrics) (qp : QueryParams)
    (api : QueryResponse) (if_empty : String) (n : Nat)
    (r0 : List Cell) (rest : List (List Cell))
    (hqp : s.query_params = some qp)
    (hdata : api.data = r0 :: rest)
    (hrest : rest ≠ []) :
    replaceEmpty (Cell.str "") = Cell.missing ∧
    (∀ c : Cell, c ≠ Cell.str "" → replaceEmpty c = c) ∧
    ∃ cols : Option (List Cell),
      (to_df s api if_empty n).1 =
        .ok { columns := cols,
              rows := rest.map (fun row => row.map replaceEmpty) } := by
  refine ⟨rfl, fun c hc => ?_, to_df_rows_of_cons s qp api if_empty n r0 rest hqp hdata hrest⟩
  simp [replaceEmpty, hc]

/-- C8 witness: on a concrete response whose data row is `["", 7]`, the table
row becomes `[missing, 7]`. -/
theorem C8_empty_string_replacement_witness :
    replaceEmpty (Cell.str "") = Cell.missing ∧
    (∀ c : Cell, c ≠ Cell.str "" → replaceEmpty c = c) ∧
    ∃ cols : Option (List Cell),
      (to_df exSource exDirtyResponse "fail" 0).1 =
        .ok { columns := cols,
              rows := [[Cell.missing, Cell.num 7]] } := by
  have h := C8_empty_string_replacement exSource { ds_id := "AW" } exDirtyResponse
    "fail" 0 [Cell.str "name", Cell.str "total"] [[Cell.str "", Cell.num 7]]
    rfl rfl (by decide)
  exact h

/-- C9: the claim is false on the code: when no credentials resolve at all
(`credentials` is `None` after the `or`), `credentials.get("user")` raises
`AttributeError`, not `CredentialError`. -/
theorem C9_counterexample :
    supermetricsInit none none none = Except.error VError.attributeError ∧
    VError.attributeError ≠ VError.credentialError :=
  ⟨rfl, by decide⟩

/-- C9 (amended): when a credentials mapping does resolve but its `user` or
`api_key` entry is missing (or empty, which the truthiness check treats the
same), construction fails with `CredentialError`; when no credentials resolve
at all, construction still fails before any other work, but with an attribute
error rather than a credential error. -/
theorem C9_amended_credential_check (credentials store : Option RawCredentials)
    (qp : Option QueryParams) :
    (resolveCredentials credentials store = none →
      supermetricsInit credentials store qp = .error .attributeError) ∧
    (∀ creds : RawCredentials,
      resolveCredentials credentials store = some creds →
      truthyStr creds.user = false ∨ truthyStr creds.api_key = false →
      supermetricsInit credentials store qp = .error .credentialError) := by
  constructor
  · intro hres
    unfold supermetricsInit
    rw [hres]
  · intro creds hres hmiss
    unfold supermetricsInit
    rw [hres]
    have hand : (truthyStr creds.user && truthyStr creds.api_key) = false := by
      rcases hmiss with h | h <;> simp [h]
    simp [hand]

/-- C9 (amended) witness: an absent store yields the attribute error; a
resolved mapping lacking `api_key` yields the credential error. -/
theorem C9_amended_witness :
    supermetricsInit none none none = Except.error VError.attributeError ∧
    supermetricsInit (some { user := some "u@example.com", api_key := none })
      none none = Except.error VError.credentialError :=
  ⟨(C9_amended_credential_check none none none).1 rfl,
   (C9_amended_credential_check
      (some { user := some "u@example.com", api_key := none }) none none).2
      { user := some "u@example.com", api_key := none } rfl (Or.inr rfl)⟩

/-- C10: for any stored `ds_id` other than `"GA"`, `_get_col_names` takes the
column names from `meta.query.fields` (via `_get_col_names_other`), for every
payload — including pivoted ones — independent of `data`, and never returns
an error. -/
theorem C10_non_ga_dispatch (s : Supermetrics) (qp : QueryParams)
    (api : QueryResponse) (n : Nat)
    (hqp : s.query_params = some qp) (hds : qp.ds_id ≠ "GA") :
    (_get_col_names s api n).1 =
      .ok (api.fields.map (fun f => Cell.str f.field_name)) ∧
    ∀ e : VError, (_get_col_names s api n).1 ≠ .error e := by
  have h : (_get_col_names s api n).1 = .ok (_get_col_names_other api) := by
    unfold _get_col_names
    rw [hqp]
    simp [hds]
  exact ⟨h, fun e he => by rw [h] at he; exact Except.noConfusion he⟩

/-- C10 witness: a non-GA source applied to the PIVOTED example payload still
takes the single `field_name` from the metadata, ignoring `data[0]`. -/
theorem C10_non_ga_dispatch_witness :
    (_get_col_names exSource exPivotResponse 0).1 = .ok [Cell.str "name"] ∧
    ∀ e : VError, (_get_col_names exSource exPivotResponse 0).1 ≠ .error e := by
  have h := C10_non_ga_dispatch exSource { ds_id := "AW" } exPivotResponse 0 rfl
    (by decide)
  simpa using h

end Viadot
